import Mathlib

/-!
Verification development for the simservice repository.

The definitions below are a shallow embedding of the Python sources:

* `SimStatus`, `PySimService` and its lifecycle methods embed
  `src/PySimService.py`;
* `ServiceManagerLocal` embeds `src/simservice/managers.py`;
* `ServiceFunctionRegistry` / `service_function` embed
  `src/simservice/ServiceFunctionRegistry.py`;
* `safe_transmit` and the remote-function machinery embed
  `src/simservice/messages.py`;
* `close_service` and the process registry embed
  `src/simservice/service_factory.py`, resolving the attribute
  `ServiceFunctionReceiver.disconnect_service` against the class body of
  `src/ServiceFunctionReceiver.py`.

Subclass hooks (`_run`, `_init`, ...) are abstract in the source
(`raise NotImplementedError`); they are modelled by a `SimHooks` record of
functions acting on an opaque internal state `σ`, with `hook_start`
additionally reporting the value it assigns to `beginning_step`
(the documented contract of `_start`).  Python exceptions are modelled by
`PyError`-valued results; Python `dict`s by association lists with
duplicate-free insertion.
-/

namespace SimService

/-- Simulation status enum (`SimStatus` in `src/PySimService.py`). -/
inductive SimStatus
  | SIM_REGISTERED
  | SIM_LOADED
  | SIM_INITIALIZED
  | SIM_STARTED
  | SIM_RUNNING
  | SIM_STOPPED
  | SIM_FINISHED
  | SIM_FAILED
  deriving DecidableEq, BEq, Repr

/-- Base-class state of a `PySimService` instance: the fields assigned in
`PySimService.__init__` plus the subclass's own state, collected in `internal`. -/
structure PySimService (σ : Type) where
  sim_name : String
  beginning_step : Int
  current_step : Int
  error_message : Option String
  status : SimStatus
  internal : σ
  deriving DecidableEq, Repr

/-- The abstract subclass hooks `_run`, `_init`, `_start`, `_step`, `_finish`,
`_stop` of `PySimService`.  Each acts on the subclass-private state `σ`;
the boolean result of `_init`/`_start`/`_step` is the value the Python hook
returns, and `hook_start` also yields the `beginning_step` value the hook
assigns (per the doc of `_start`: it should set `self.beginning_step`). -/
structure SimHooks (σ : Type) where
  hook_run : σ → σ
  hook_init : σ → Bool × σ
  hook_start : σ → Bool × Int × σ
  hook_step : σ → Bool × σ
  hook_finish : σ → σ
  hook_stop : Bool → σ → σ

/-- A fresh instance, as built by `PySimService.__init__(sim_name)`. -/
def PySimService.mkNew (sim_name : String) (i : σ) : PySimService σ :=
  { sim_name := sim_name
    beginning_step := -1
    current_step := -1
    error_message := none
    status := SimStatus.SIM_REGISTERED
    internal := i }

/-- Return value of `PySimService.run`: the dict `{'name': ..., 'sim': ...}`. -/
structure RunReturn (σ : Type) where
  name : String
  sim : PySimService σ

/-- `PySimService.run`: calls `_run`, sets status to `SIM_LOADED`, calls the
stored `_inside_run` hook on the instance itself, then returns
`{'name': self._sim_name, 'sim': self}` together with the instance.
The stored `_inside_run` callable is passed explicitly as `insideRun`. -/
def PySimService.run (H : SimHooks σ) (insideRun : PySimService σ → PySimService σ)
    (s : PySimService σ) : RunReturn σ × PySimService σ :=
  let s3 := insideRun { s with internal := H.hook_run s.internal,
                               status := SimStatus.SIM_LOADED }
  (⟨s3.sim_name, s3⟩, s3)

/-- The default `PySimService.inside_run` static method: does nothing. -/
def PySimService.inside_run (s : PySimService σ) : PySimService σ := s

/-- `PySimService.init`: calls `_init`; if truthy, status becomes
`SIM_INITIALIZED`; returns the hook's boolean. -/
def PySimService.init (H : SimHooks σ) (s : PySimService σ) : Bool × PySimService σ :=
  match H.hook_init s.internal with
  | (true, i) => (true, { s with internal := i, status := SimStatus.SIM_INITIALIZED })
  | (false, i) => (false, { s with internal := i })

/-- `PySimService.start`: calls `_start` (which sets `beginning_step`); if
truthy, sets `current_step` to `beginning_step` and status to `SIM_STARTED`;
returns the hook's boolean. -/
def PySimService.start (H : SimHooks σ) (s : PySimService σ) : Bool × PySimService σ :=
  match H.hook_start s.internal with
  | (true, bs, i) =>
      (true, { s with internal := i, beginning_step := bs, current_step := bs,
                      status := SimStatus.SIM_STARTED })
  | (false, bs, i) => (false, { s with internal := i, beginning_step := bs })

/-- `PySimService.step`: calls `_step`; if truthy, sets status to
`SIM_RUNNING` and increments `current_step`; returns the hook's boolean. -/
def PySimService.step (H : SimHooks σ) (s : PySimService σ) : Bool × PySimService σ :=
  match H.hook_step s.internal with
  | (true, i) => (true, { s with internal := i, status := SimStatus.SIM_RUNNING,
                                 current_step := s.current_step + 1 })
  | (false, i) => (false, { s with internal := i })

/-- `PySimService.finish`: calls `_finish`, then sets status to `SIM_FINISHED`. -/
def PySimService.finish (H : SimHooks σ) (s : PySimService σ) : PySimService σ :=
  { s with internal := H.hook_finish s.internal, status := SimStatus.SIM_FINISHED }

/-- `PySimService.stop`: calls `_stop(terminate_sim)`, then sets status to
`SIM_FINISHED` if `terminate_sim` else `SIM_STOPPED`. -/
def PySimService.stop (H : SimHooks σ) (terminate_sim : Bool) (s : PySimService σ) :
    PySimService σ :=
  let s1 := { s with internal := H.hook_stop terminate_sim s.internal }
  if terminate_sim then { s1 with status := SimStatus.SIM_FINISHED }
  else { s1 with status := SimStatus.SIM_STOPPED }

/-- `k` consecutive calls to `step()`, keeping the final state. -/
def PySimService.stepN (H : SimHooks σ) (s : PySimService σ) : Nat → PySimService σ
  | 0 => s
  | k + 1 => (PySimService.step H (PySimService.stepN H s k)).2

/-- The statuses observed after each of `k` consecutive `step()` calls. -/
def stepStatusTrace (H : SimHooks σ) (s : PySimService σ) (k : Nat) : List SimStatus :=
  (List.range k).map (fun j => (PySimService.stepN H s (j + 1)).status)

/-- The status observed after each call of the sequence
`run, init, start, step × k, finish` (with the default inside-run hook). -/
def observedStatuses (H : SimHooks σ) (s : PySimService σ) (k : Nat) : List SimStatus :=
  let s1 := (PySimService.run H PySimService.inside_run s).2
  let s2 := (PySimService.init H s1).2
  let s3 := (PySimService.start H s2).2
  s1.status :: s2.status :: s3.status ::
    (stepStatusTrace H s3 k ++ [(PySimService.finish H (PySimService.stepN H s3 k)).status])

/-- Collapse consecutive repeats in a status sequence (so that the `k`
repetitions of `SIM_RUNNING` produced by `k` steps count once). -/
def collapseRepeats : List SimStatus → List SimStatus
  | [] => []
  | a :: t =>
    match collapseRepeats t with
    | [] => [a]
    | b :: t2 => if a = b then b :: t2 else a :: b :: t2

/-- The canonical successful-lifecycle status chain from the spec. -/
def statusChain : List SimStatus :=
  [SimStatus.SIM_LOADED, SimStatus.SIM_INITIALIZED, SimStatus.SIM_STARTED,
   SimStatus.SIM_RUNNING, SimStatus.SIM_FINISHED]

/-- Concrete hooks whose lifecycle calls all succeed (internal state `Unit`,
`_start` setting `beginning_step := 0`). -/
def unitHooks : SimHooks Unit :=
  { hook_run := id
    hook_init := fun i => (true, i)
    hook_start := fun i => (true, 0, i)
    hook_step := fun i => (true, i)
    hook_finish := id
    hook_stop := fun _ i => i }

/-- Concrete hooks whose boolean-returning lifecycle calls all fail. -/
def falseHooks : SimHooks Unit :=
  { hook_run := id
    hook_init := fun i => (false, i)
    hook_start := fun i => (false, 7, i)
    hook_step := fun i => (false, i)
    hook_finish := id
    hook_stop := fun _ i => i }

/-- A freshly constructed concrete service instance. -/
def sampleService : PySimService Unit := PySimService.mkNew "walker" ()

/-- Python exception classes raised by the embedded code. -/
inductive PyError
  | attributeError (msg : String)
  | valueError (msg : String)
  | keyError (msg : String)
  | notAServiceError
  deriving DecidableEq, Repr

/-- Lookup in a Python `dict` modelled as an association list
(keys are unique because insertion is always guarded by a lookup). -/
def dictLookup (l : List (String × α)) (k : String) : Option α :=
  match l with
  | [] => none
  | (k1, v) :: t => if k1 = k then some v else dictLookup t k

/-- Python `del d[k]` once `k` is known present: drop the entry with key `k`. -/
def dictDelete (l : List (String × α)) (k : String) : List (String × α) :=
  l.filter (fun kv => kv.1 != k)

/-! ## `src/simservice/managers.py` -/

/-- Class-level state of `ServiceManagerLocal`: the `started` flag and the two
registries.  `W` is the type of service wraps, `F` that of plain callables.
The underlying `multiprocessing.managers.BaseManager` (created on demand and
used by `_register_callable`) lives outside the registry state and carries no
observable registry data, so it is not modelled. -/
structure ManagerState (W F : Type) where
  started : Bool
  service_registry : List (String × W)
  function_registry : List (String × F)
  deriving DecidableEq, Repr

namespace ServiceManagerLocal

/-- `ServiceManagerLocal.register_service`: raises `AttributeError` when the
service name is already registered (leaving the registry untouched), else
stores the wrap and registers it with the underlying manager. -/
def register_service (st : ManagerState W F) (service_name : String) (service_wrap : W) :
    Option PyError × ManagerState W F :=
  if (dictLookup st.service_registry service_name).isSome then
    (some (PyError.attributeError
      ("Service with name " ++ service_name ++ " has already been registered")), st)
  else
    (none, { st with service_registry := st.service_registry ++ [(service_name, service_wrap)] })

/-- `ServiceManagerLocal.register_function`: same pattern for plain callables. -/
def register_function (st : ManagerState W F) (function_name : String) (func : F) :
    Option PyError × ManagerState W F :=
  if (dictLookup st.function_registry function_name).isSome then
    (some (PyError.attributeError
      ("Function with name " ++ function_name ++ " has already been registered")), st)
  else
    (none, { st with function_registry := st.function_registry ++ [(function_name, func)] })

/-- `ServiceManagerLocal.is_registered`. -/
def is_registered (st : ManagerState W F) (name : String) : Bool :=
  (dictLookup st.service_registry name).isSome || (dictLookup st.function_registry name).isSome

end ServiceManagerLocal

/-! ## `src/simservice/messages.py` -/

/-- A Python function object: its `__name__` and an identity tag
distinguishing different function objects of the same name. -/
structure PyFunc where
  fname : String
  fid : Nat
  deriving DecidableEq, Repr

/-- `RemoteFunctionEvaluator`: the client-side callable stub of an endpoint.
It holds one end of a dedicated pipe bound to the function. -/
structure RemoteFunctionEvaluator where
  func : PyFunc
  deriving DecidableEq, Repr

/-- `RemoteFunctionWorker`: the thread on the other end of the endpoint pipe. -/
structure RemoteFunctionWorker where
  func : PyFunc
  deriving DecidableEq, Repr

/-- `remote_function_factory(func)`: fresh pipe, worker thread bound to the
function on one end, evaluator on the other. -/
def remote_function_factory (func : PyFunc) : RemoteFunctionEvaluator × RemoteFunctionWorker :=
  (⟨func⟩, ⟨func⟩)

/-- `ServiceFunctionConnectionMessage(service_name, function_name, evaluator)`;
the first field receives `ServiceFunctionRegistry.process_name`, which may be
`None`. -/
structure ServiceFunctionConnectionMessage where
  service_name : Option String
  function_name : String
  evaluator : RemoteFunctionEvaluator
  deriving DecidableEq, Repr

/-- The ways a pipe operation can fail because a pipe is no longer usable:
`BrokenPipeError` (write, peer end closed), `EOFError` (read, peer end
closed), and the plain `OSError` that `multiprocessing.connection` raises
when the operation is attempted on a connection already closed on the
caller's own end (`handle is closed`). -/
inductive PipeFailure
  | brokenPipeError
  | eofError
  | osErrorClosedHandle
  deriving DecidableEq, Repr

/-- `safe_transmit(conn)`: runs the wrapped transmission, turning
`BrokenPipeError` and `EOFError` into the sentinel `None` (with a logged
warning); any other outcome passes through.  The wrapped transmission is
modelled by its result: a value or a `PipeFailure`. -/
def safe_transmit (res : Except PipeFailure α) : Except PipeFailure (Option α) :=
  match res with
  | Except.ok a => Except.ok (some a)
  | Except.error PipeFailure.brokenPipeError => Except.ok none
  | Except.error PipeFailure.eofError => Except.ok none
  | Except.error e => Except.error e

/-! ## `src/simservice/ServiceFunctionRegistry.py` -/

/-- Class-level state of `ServiceFunctionRegistry`: the receiver connection
and process name installed by the parent (both absent outside a hosted
process), the `workers` table, and the messages sent so far on the receiver
connection. -/
structure SFRegistryState where
  receiver_conn : Option Nat
  process_name : Option String
  workers : List (String × (PyFunc × RemoteFunctionWorker))
  sent : List ServiceFunctionConnectionMessage
  deriving DecidableEq, Repr

namespace ServiceFunctionRegistry

/-- `ServiceFunctionRegistry.register_function(func, function_name)`:
raises `NotAServiceError` when no receiver connection is installed; defaults
the name to `func.__name__`; raises `ValueError` on a duplicate name; else
builds an endpoint, stores `(func, worker)` and sends the announcement. -/
def register_function (st : SFRegistryState) (func : PyFunc)
    (function_name : Option String) : Option PyError × SFRegistryState :=
  if st.receiver_conn.isNone then
    (some PyError.notAServiceError, st)
  else
    let fname := function_name.getD func.fname
    if (dictLookup st.workers fname).isSome then
      (some (PyError.valueError
        ("Function with name " ++ fname ++ " has already been registered as a service function")), st)
    else
      let ew := remote_function_factory func
      (none,
        { st with workers := st.workers ++ [(fname, (func, ew.2))],
                  sent := st.sent ++ [⟨st.process_name, fname, ew.1⟩] })

end ServiceFunctionRegistry

/-- Outcome of the free function `service_function`: the exception let
through (if any), whether a warning was logged, and the registry state. -/
structure ServiceFuncOut where
  error : Option PyError
  warned : Bool
  state : SFRegistryState
  deriving DecidableEq, Repr

/-- The free function `service_function(func, function_name)`: forwards to
`ServiceFunctionRegistry.register_function`, catching exactly
`NotAServiceError` and downgrading it to a logged warning. -/
def service_function (st : SFRegistryState) (func : PyFunc)
    (function_name : Option String) : ServiceFuncOut :=
  match ServiceFunctionRegistry.register_function st func function_name with
  | (some PyError.notAServiceError, st1) => ⟨none, true, st1⟩
  | (e, st1) => ⟨e, false, st1⟩

/-! ## `src/ServiceFunctionReceiver.py` and `src/simservice/service_factory.py` -/

/-- The attributes defined on the class body of `ServiceFunctionReceiver`
(`src/ServiceFunctionReceiver.py`, lines 81-168): two key constants, two
class-level dictionaries, and the two classmethods.  Python resolves
`ServiceFunctionReceiver.<name>` against this set and raises
`AttributeError` when the name is absent. -/
def serviceFunctionReceiverAttrs : List String :=
  ["KEY_CONN", "KEY_CONT", "service_containers", "workers",
   "register_service", "_flush_connection"]

/-- Whether `getattr(ServiceFunctionReceiver, a)` succeeds. -/
def receiverHasAttr (a : String) : Bool := serviceFunctionReceiverAttrs.contains a

/-- Client-side service proxy, as far as `close_service` observes it: its
`process_name()` and whether its command-pipe end has been closed. -/
structure Proxy where
  pname : String
  conn_closed : Bool
  deriving DecidableEq, Repr

/-- `TypeProcessWrap.close` (`src/simservice/service_wraps.py`): if the
command pipe is still open, send the terminator, await the acknowledgement,
terminate the container and close the pipe; idempotent. -/
def Proxy.close (p : Proxy) : Proxy := { p with conn_closed := true }

/-- A running-process record, the value stored in `ProcessRegistry`:
`(service process proxy, service wrap, connection to the service process,
connection to the service function receiver)`. -/
structure ProcessRecord (W : Type) where
  proxy : Proxy
  wrap : W
  process_conn : Nat
  sfunc_receiver_conn : Nat
  deriving DecidableEq, Repr

/-- `close_service(_s)` (`src/simservice/service_factory.py`): first
`_s.close()`, then `del process_registry[_s.process_name()]` (a `KeyError`
if the record is absent), then the attribute access
`ServiceFunctionReceiver.disconnect_service` — resolved against
`serviceFunctionReceiverAttrs`.  Returns the exception that escapes (if
any), the proxy after `close()`, and the registry after the deletion. -/
def close_service (reg : List (String × ProcessRecord W)) (p : Proxy) :
    Option PyError × Proxy × List (String × ProcessRecord W) :=
  let p1 := Proxy.close p
  match dictLookup reg p.pname with
  | none => (some (PyError.keyError p.pname), p1, reg)
  | some _ =>
    let reg1 := dictDelete reg p.pname
    if receiverHasAttr "disconnect_service" then
      (none, p1, reg1)
    else
      (some (PyError.attributeError
        "type object ServiceFunctionReceiver has no attribute disconnect_service"),
       p1, reg1)

/-- A concrete running proxy. -/
def sampleProxy : Proxy := { pname := "0x1", conn_closed := false }

/-- The process registry holding `sampleProxy`'s record. -/
def sampleRegistry : List (String × ProcessRecord Nat) :=
  [("0x1", { proxy := sampleProxy, wrap := 0, process_conn := 0, sfunc_receiver_conn := 1 })]

/-- A manager state with service "X" already registered to wrap `1`. -/
def sampleManager : ManagerState Nat Nat :=
  { started := true, service_registry := [("X", 1)], function_registry := [] }

/-- A registered service function (the first registration under "get_pos"). -/
def sampleFuncA : PyFunc := { fname := "get_pos", fid := 1 }

/-- A distinct function object with the same name. -/
def sampleFuncB : PyFunc := { fname := "get_pos", fid := 2 }

/-- A hosted-process registry state with "get_pos" already registered. -/
def sampleSFRegistry : SFRegistryState :=
  { receiver_conn := some 0
    process_name := some "0x1"
    workers := [("get_pos", (sampleFuncA, (remote_function_factory sampleFuncA).2))]
    sent := [⟨some "0x1", "get_pos", (remote_function_factory sampleFuncA).1⟩] }

/-- The registry state outside a hosted process: no pipe installed. -/
def nakedSFRegistry : SFRegistryState :=
  { receiver_conn := none, process_name := none, workers := [], sent := [] }

/-! ## Helper lemmas -/

/-- A `step()` whose hook returns truthy sets `SIM_RUNNING`, increments
`current_step`, and preserves `beginning_step`. -/
theorem step_true_spec (H : SimHooks σ) (t : PySimService σ)
    (h : (PySimService.step H t).1 = true) :
    (PySimService.step H t).2.status = SimStatus.SIM_RUNNING ∧
    (PySimService.step H t).2.current_step = t.current_step + 1 ∧
    (PySimService.step H t).2.beginning_step = t.beginning_step := by
  rcases hr : H.hook_step t.internal with ⟨b, i⟩
  cases b <;> simp_all [PySimService.step, hr]

/-- An `init()` whose hook returns truthy sets `SIM_INITIALIZED`. -/
theorem init_true_status (H : SimHooks σ) (t : PySimService σ)
    (h : (PySimService.init H t).1 = true) :
    (PySimService.init H t).2.status = SimStatus.SIM_INITIALIZED := by
  rcases hr : H.hook_init t.internal with ⟨b, i⟩
  cases b <;> simp_all [PySimService.init, hr]

/-- A `start()` whose hook returns truthy sets `SIM_STARTED`. -/
theorem start_true_status (H : SimHooks σ) (t : PySimService σ)
    (h : (PySimService.start H t).1 = true) :
    (PySimService.start H t).2.status = SimStatus.SIM_STARTED := by
  rcases hr : H.hook_start t.internal with ⟨b, bs, i⟩
  cases b <;> simp_all [PySimService.start, hr]

/-- `finish()` always sets `SIM_FINISHED`. -/
theorem finish_status (H : SimHooks σ) (t : PySimService σ) :
    (PySimService.finish H t).status = SimStatus.SIM_FINISHED := rfl

/-- When every one of `k` consecutive steps returns truthy, the status
observed after each of them is `SIM_RUNNING`. -/
theorem stepStatusTrace_eq_replicate (H : SimHooks σ) (s : PySimService σ) (k : Nat)
    (h : ∀ j, j < k → (PySimService.step H (PySimService.stepN H s j)).1 = true) :
    stepStatusTrace H s k = List.replicate k SimStatus.SIM_RUNNING := by
  rw [List.eq_replicate_iff]
  constructor
  · simp [stepStatusTrace]
  · intro b hb
    simp only [stepStatusTrace, List.mem_map, List.mem_range] at hb
    rcases hb with ⟨j, hj, rfl⟩
    have hs := step_true_spec H (PySimService.stepN H s j) (h j hj)
    simpa [PySimService.stepN] using hs.1

/-- Defining equation of `collapseRepeats` on a cons cell. -/
theorem collapseRepeats_cons (a : SimStatus) (t : List SimStatus) :
    collapseRepeats (a :: t)
      = match collapseRepeats t with
        | [] => [a]
        | b :: t2 => if a = b then b :: t2 else a :: b :: t2 := rfl

/-- Collapsing one-or-more trailing `SIM_RUNNING` repeats before the final
`SIM_FINISHED` yields exactly one `SIM_RUNNING`. -/
theorem collapseRepeats_replicate_succ (k : Nat) :
    collapseRepeats
        (List.replicate (k + 1) SimStatus.SIM_RUNNING ++ [SimStatus.SIM_FINISHED])
      = [SimStatus.SIM_RUNNING, SimStatus.SIM_FINISHED] := by
  induction k with
  | zero => rfl
  | succ n ih =>
    rw [List.replicate_succ, List.cons_append, collapseRepeats_cons, ih]
    rfl

/-- Closed form of the collapsed lifecycle trace for at least one step. -/
theorem collapseRepeats_lifecycle_succ (n : Nat) :
    collapseRepeats (SimStatus.SIM_LOADED :: SimStatus.SIM_INITIALIZED ::
        SimStatus.SIM_STARTED ::
        (List.replicate (n + 1) SimStatus.SIM_RUNNING ++ [SimStatus.SIM_FINISHED]))
      = statusChain := by
  rw [collapseRepeats_cons, collapseRepeats_cons, collapseRepeats_cons,
      collapseRepeats_replicate_succ]
  rfl

/-- `run()` with the default inside-run hook leaves status `SIM_LOADED`. -/
theorem run_default_status (H : SimHooks σ) (s : PySimService σ) :
    (PySimService.run H PySimService.inside_run s).2.status = SimStatus.SIM_LOADED := rfl

/-! ## Claim theorems -/

/-- C3 counterexample: with always-succeeding hooks and zero steps, the
sequence `run, init, start, finish` succeeds, the observed status sequence
is `LOADED, INITIALIZED, STARTED, FINISHED` (already repeat-free), and it is
not a prefix of `LOADED, INITIALIZED, STARTED, RUNNING, FINISHED`. -/
theorem lifecycle_prefix_counterexample :
    (PySimService.init unitHooks
        (PySimService.run unitHooks PySimService.inside_run sampleService).2).1 = true ∧
    (PySimService.start unitHooks (PySimService.init unitHooks
        (PySimService.run unitHooks PySimService.inside_run sampleService).2).2).1 = true ∧
    observedStatuses unitHooks sampleService 0
      = [SimStatus.SIM_LOADED, SimStatus.SIM_INITIALIZED, SimStatus.SIM_STARTED,
         SimStatus.SIM_FINISHED] ∧
    collapseRepeats (observedStatuses unitHooks sampleService 0)
      = observedStatuses unitHooks sampleService 0 ∧
    ¬ List.IsPrefix (observedStatuses unitHooks sampleService 0) statusChain := by
  refine ⟨by decide, by decide, by decide, by decide, ?_⟩
  rintro ⟨t, ht⟩
  rw [show observedStatuses unitHooks sampleService 0
        = [SimStatus.SIM_LOADED, SimStatus.SIM_INITIALIZED, SimStatus.SIM_STARTED,
           SimStatus.SIM_FINISHED] from by decide] at ht
  simp [statusChain] at ht

/-- C3 amended: for every successful sequence `run, init, start, step × k,
finish`, the observed status sequence with consecutive repeats collapsed is
an order-preserving subsequence of `LOADED, INITIALIZED, STARTED, RUNNING,
FINISHED` (a strict subsequence, not a prefix, when `k = 0`), and `RUNNING`
appears in it iff at least one `step()` returned truthy. -/
theorem lifecycle_monotonicity_amended (H : SimHooks σ) (s : PySimService σ) (k : Nat)
    (hinit : (PySimService.init H
        (PySimService.run H PySimService.inside_run s).2).1 = true)
    (hstart : (PySimService.start H (PySimService.init H
        (PySimService.run H PySimService.inside_run s).2).2).1 = true)
    (hsteps : ∀ j, j < k → (PySimService.step H (PySimService.stepN H
        (PySimService.start H (PySimService.init H
          (PySimService.run H PySimService.inside_run s).2).2).2 j)).1 = true) :
    List.Sublist (collapseRepeats (observedStatuses H s k)) statusChain ∧
    (SimStatus.SIM_RUNNING ∈ collapseRepeats (observedStatuses H s k) ↔ 0 < k) := by
  have hobs : observedStatuses H s k
      = SimStatus.SIM_LOADED :: SimStatus.SIM_INITIALIZED :: SimStatus.SIM_STARTED ::
        (List.replicate k SimStatus.SIM_RUNNING ++ [SimStatus.SIM_FINISHED]) := by
    simp only [observedStatuses]
    rw [run_default_status, init_true_status _ _ hinit, start_true_status _ _ hstart,
        stepStatusTrace_eq_replicate _ _ _ hsteps, finish_status]
  rw [hobs]
  cases k with
  | zero =>
    refine ⟨by decide, iff_of_false ?_ (by decide)⟩
    show SimStatus.SIM_RUNNING ∉ [SimStatus.SIM_LOADED, SimStatus.SIM_INITIALIZED,
        SimStatus.SIM_STARTED, SimStatus.SIM_FINISHED]
    simp
  | succ n =>
    rw [collapseRepeats_lifecycle_succ]
    exact ⟨List.Sublist.refl _, by simp [statusChain]⟩

/-- Witness for C3's amended theorem: `unitHooks` at `sampleService`, two steps. -/
theorem lifecycle_monotonicity_witness :
    (PySimService.init unitHooks
        (PySimService.run unitHooks PySimService.inside_run sampleService).2).1 = true ∧
    (PySimService.start unitHooks (PySimService.init unitHooks
        (PySimService.run unitHooks PySimService.inside_run sampleService).2).2).1 = true ∧
    (∀ j, j < 2 → (PySimService.step unitHooks (PySimService.stepN unitHooks
        (PySimService.start unitHooks (PySimService.init unitHooks
          (PySimService.run unitHooks PySimService.inside_run sampleService).2).2).2 j)).1
        = true) ∧
    (List.Sublist (collapseRepeats (observedStatuses unitHooks sampleService 2))
        statusChain ∧
     (SimStatus.SIM_RUNNING ∈ collapseRepeats (observedStatuses unitHooks sampleService 2)
        ↔ 0 < 2)) :=
  ⟨by decide, by decide, by decide,
   lifecycle_monotonicity_amended unitHooks sampleService 2 (by decide) (by decide)
     (by decide)⟩

/-- C4: `stop(terminate_sim=False)` leaves status `SIM_STOPPED`,
`stop(terminate_sim=True)` leaves status `SIM_FINISHED`, and repeating the
same stop call yields the same status as calling it once. -/
theorem stop_dichotomy_idempotent (H : SimHooks σ) (s : PySimService σ) :
    (PySimService.stop H false s).status = SimStatus.SIM_STOPPED ∧
    (PySimService.stop H true s).status = SimStatus.SIM_FINISHED ∧
    (PySimService.stop H false (PySimService.stop H false s)).status
      = (PySimService.stop H false s).status ∧
    (PySimService.stop H true (PySimService.stop H true s)).status
      = (PySimService.stop H true s).status := by
  simp [PySimService.stop]

/-- C5: when the subclass hook `_init`, `_start` or `_step` returns falsy,
the corresponding public method returns that same falsy value and leaves
both `status` and `current_step` unchanged. -/
theorem falsy_hook_no_advance (H : SimHooks σ) (s : PySimService σ) :
    ((H.hook_init s.internal).1 = false →
      (PySimService.init H s).1 = false ∧
      (PySimService.init H s).2.status = s.status ∧
      (PySimService.init H s).2.current_step = s.current_step) ∧
    ((H.hook_start s.internal).1 = false →
      (PySimService.start H s).1 = false ∧
      (PySimService.start H s).2.status = s.status ∧
      (PySimService.start H s).2.current_step = s.current_step) ∧
    ((H.hook_step s.internal).1 = false →
      (PySimService.step H s).1 = false ∧
      (PySimService.step H s).2.status = s.status ∧
      (PySimService.step H s).2.current_step = s.current_step) := by
  refine ⟨?_, ?_, ?_⟩
  · rcases hr : H.hook_init s.internal with ⟨b, i⟩
    cases b <;> simp [PySimService.init, hr]
  · rcases hr : H.hook_start s.internal with ⟨b, bs, i⟩
    cases b <;> simp [PySimService.start, hr]
  · rcases hr : H.hook_step s.internal with ⟨b, i⟩
    cases b <;> simp [PySimService.step, hr]

/-- Witness for C5: `falseHooks` at `sampleService`, `init` branch. -/
theorem falsy_hook_no_advance_witness :
    (falseHooks.hook_init sampleService.internal).1 = false ∧
    ((PySimService.init falseHooks sampleService).1 = false ∧
     (PySimService.init falseHooks sampleService).2.status = sampleService.status ∧
     (PySimService.init falseHooks sampleService).2.current_step
       = sampleService.current_step) :=
  ⟨by decide, (falsy_hook_no_advance falseHooks sampleService).1 (by decide)⟩

/-- C9: `run()` first invokes `_run`, then invokes the settable inside-run
hook exactly once on the instance (whose status is already `SIM_LOADED`),
and returns the dictionary of the simulation name and the instance; with the
default do-nothing hook, the status after `run()` is `SIM_LOADED`. -/
theorem run_invokes_hook_once (H : SimHooks σ) (f : PySimService σ → PySimService σ)
    (s : PySimService σ) :
    (PySimService.run H f s).2
      = f { s with internal := H.hook_run s.internal, status := SimStatus.SIM_LOADED } ∧
    (PySimService.run H f s).1
      = ⟨(PySimService.run H f s).2.sim_name, (PySimService.run H f s).2⟩ ∧
    (PySimService.run H PySimService.inside_run s).2.status = SimStatus.SIM_LOADED ∧
    (PySimService.run H PySimService.inside_run s).1
      = ⟨s.sim_name,
         { s with internal := H.hook_run s.internal, status := SimStatus.SIM_LOADED }⟩ :=
  ⟨rfl, rfl, rfl, rfl⟩

/-- C10: `step()` enforces no status precondition: from any starting state
(whatever its status, e.g. `SIM_STOPPED` after a non-terminating stop), a
truthy `_step` makes `step()` return truthy, set `SIM_RUNNING` and increment
`current_step`. -/
theorem step_no_status_precondition (H : SimHooks σ) (s : PySimService σ)
    (h : (H.hook_step s.internal).1 = true) :
    (PySimService.step H s).1 = true ∧
    (PySimService.step H s).2.status = SimStatus.SIM_RUNNING ∧
    (PySimService.step H s).2.current_step = s.current_step + 1 := by
  rcases hr : H.hook_step s.internal with ⟨b, i⟩
  cases b <;> simp_all [PySimService.step, hr]

/-- Witness for C10: stepping right after `stop(terminate_sim=False)`
silently resumes with status `SIM_RUNNING`. -/
theorem step_no_status_precondition_witness :
    (unitHooks.hook_step (PySimService.stop unitHooks false sampleService).internal).1 = true ∧
    (PySimService.stop unitHooks false sampleService).status = SimStatus.SIM_STOPPED ∧
    ((PySimService.step unitHooks (PySimService.stop unitHooks false sampleService)).1 = true ∧
     (PySimService.step unitHooks (PySimService.stop unitHooks false sampleService)).2.status
       = SimStatus.SIM_RUNNING ∧
     (PySimService.step unitHooks (PySimService.stop unitHooks false sampleService)).2.current_step
       = (PySimService.stop unitHooks false sampleService).current_step + 1) :=
  ⟨by decide, by decide,
   step_no_status_precondition unitHooks (PySimService.stop unitHooks false sampleService)
     (by decide)⟩

/-- C2: after a truthy `start()`, `current_step` equals `beginning_step`;
after `k` further truthy `step()` calls, `current_step` equals
`beginning_step + k`. -/
theorem step_counter_law (H : SimHooks σ) (s : PySimService σ) (k : Nat)
    (hstart : (PySimService.start H s).1 = true)
    (hsteps : ∀ j, j < k →
      (PySimService.step H (PySimService.stepN H (PySimService.start H s).2 j)).1 = true) :
    (PySimService.start H s).2.current_step = (PySimService.start H s).2.beginning_step ∧
    (PySimService.stepN H (PySimService.start H s).2 k).current_step
      = (PySimService.start H s).2.beginning_step + k := by
  have h1 : (PySimService.start H s).2.current_step
      = (PySimService.start H s).2.beginning_step := by
    rcases hr : H.hook_start s.internal with ⟨b, bs, i⟩
    cases b <;> simp_all [PySimService.start, hr]
  refine ⟨h1, ?_⟩
  revert hsteps
  induction k with
  | zero => intro _; simpa [PySimService.stepN] using h1
  | succ n ih =>
    intro hsteps
    have hn := hsteps n (Nat.lt_succ_self n)
    have hstep := step_true_spec H (PySimService.stepN H (PySimService.start H s).2 n) hn
    have ihn := ih (fun j hj => hsteps j (Nat.lt_succ_of_lt hj))
    simp only [PySimService.stepN]
    rw [hstep.2.1, ihn]
    push_cast
    ring

/-- C6: with a service name already in the manager's service registry, a
second `register_service` raises `AttributeError` and the registry still
maps the name to the first wrap; with a function name already in the hosted
process's worker table, a second `register_function` raises `ValueError` and
the first endpoint remains registered. -/
theorem duplicate_registration_rejected {W F : Type} (st : ManagerState W F)
    (n : String) (w1 w2 : W) (hn : dictLookup st.service_registry n = some w1)
    (rst : SFRegistryState) (c : Nat) (hc : rst.receiver_conn = some c)
    (f1 : PyFunc) (wk : RemoteFunctionWorker) (f2 : PyFunc) (m : String)
    (hm : dictLookup rst.workers m = some (f1, wk)) :
    ((∃ e, (ServiceManagerLocal.register_service st n w2).1
        = some (PyError.attributeError e)) ∧
     (ServiceManagerLocal.register_service st n w2).2 = st ∧
     dictLookup (ServiceManagerLocal.register_service st n w2).2.service_registry n
        = some w1) ∧
    ((∃ e, (ServiceFunctionRegistry.register_function rst f2 (some m)).1
        = some (PyError.valueError e)) ∧
     (ServiceFunctionRegistry.register_function rst f2 (some m)).2 = rst ∧
     dictLookup (ServiceFunctionRegistry.register_function rst f2 (some m)).2.workers m
        = some (f1, wk)) := by
  constructor
  · simp [ServiceManagerLocal.register_service, hn]
  · simp [ServiceFunctionRegistry.register_function, hc, hm]

/-- Witness for C6 at `sampleManager` and `sampleSFRegistry`. -/
theorem duplicate_registration_rejected_witness :
    dictLookup sampleManager.service_registry "X" = some 1 ∧
    sampleSFRegistry.receiver_conn = some 0 ∧
    dictLookup sampleSFRegistry.workers "get_pos"
      = some (sampleFuncA, (remote_function_factory sampleFuncA).2) ∧
    (((∃ e, (ServiceManagerLocal.register_service sampleManager "X" 2).1
        = some (PyError.attributeError e)) ∧
      (ServiceManagerLocal.register_service sampleManager "X" 2).2 = sampleManager ∧
      dictLookup (ServiceManagerLocal.register_service sampleManager "X" 2).2.service_registry "X"
        = some 1) ∧
     ((∃ e, (ServiceFunctionRegistry.register_function sampleSFRegistry sampleFuncB
          (some "get_pos")).1 = some (PyError.valueError e)) ∧
      (ServiceFunctionRegistry.register_function sampleSFRegistry sampleFuncB
          (some "get_pos")).2 = sampleSFRegistry ∧
      dictLookup (ServiceFunctionRegistry.register_function sampleSFRegistry sampleFuncB
          (some "get_pos")).2.workers "get_pos"
        = some (sampleFuncA, (remote_function_factory sampleFuncA).2))) :=
  ⟨by decide, by decide, by decide,
   duplicate_registration_rejected sampleManager "X" 1 2 (by decide) sampleSFRegistry 0
     (by decide) sampleFuncA (remote_function_factory sampleFuncA).2 sampleFuncB "get_pos"
     (by decide)⟩

/-- C7: with no service-function pipe installed, `register_function` raises
`NotAServiceError` leaving the state untouched, while the free function
`service_function` catches exactly that error, logs a warning, returns
normally, and leaves the worker table unchanged. -/
theorem no_pipe_downgraded (st : SFRegistryState) (f : PyFunc) (n : Option String)
    (h : st.receiver_conn = none) :
    (ServiceFunctionRegistry.register_function st f n).1 = some PyError.notAServiceError ∧
    (ServiceFunctionRegistry.register_function st f n).2 = st ∧
    (service_function st f n).error = none ∧
    (service_function st f n).warned = true ∧
    (service_function st f n).state.workers = st.workers := by
  simp [ServiceFunctionRegistry.register_function, service_function, h]

/-- Witness for C7 at `nakedSFRegistry`. -/
theorem no_pipe_downgraded_witness :
    nakedSFRegistry.receiver_conn = none ∧
    ((ServiceFunctionRegistry.register_function nakedSFRegistry sampleFuncA none).1
        = some PyError.notAServiceError ∧
     (ServiceFunctionRegistry.register_function nakedSFRegistry sampleFuncA none).2
        = nakedSFRegistry ∧
     (service_function nakedSFRegistry sampleFuncA none).error = none ∧
     (service_function nakedSFRegistry sampleFuncA none).warned = true ∧
     (service_function nakedSFRegistry sampleFuncA none).state.workers
        = nakedSFRegistry.workers) :=
  ⟨by decide, no_pipe_downgraded nakedSFRegistry sampleFuncA none (by decide)⟩

/-- C8 counterexample: an operation on a connection already closed on the
caller's own end fails with the plain `OSError` of
`multiprocessing.connection` (`handle is closed`), which `safe_transmit`
catches neither as `BrokenPipeError` nor as `EOFError`: the exception
propagates to the caller instead of becoming the sentinel `None`. -/
theorem safe_transmit_counterexample :
    safe_transmit (Except.error PipeFailure.osErrorClosedHandle : Except PipeFailure Unit)
      = Except.error PipeFailure.osErrorClosedHandle ∧
    safe_transmit (Except.error PipeFailure.osErrorClosedHandle : Except PipeFailure Unit)
      ≠ Except.ok none :=
  ⟨rfl, fun h => Except.noConfusion h⟩

/-- C8 amended: `safe_transmit` converts exactly `BrokenPipeError` and
`EOFError` (peer-closed pipe) into the sentinel `None`; a successful
transmission passes through, and the `OSError` raised by operating on a
connection closed on the caller's own end propagates. -/
theorem safe_transmit_amended {α : Type} (res : Except PipeFailure α) :
    ((res = Except.error PipeFailure.brokenPipeError ∨
      res = Except.error PipeFailure.eofError) →
      safe_transmit res = Except.ok none) ∧
    (∀ a, res = Except.ok a → safe_transmit res = Except.ok (some a)) ∧
    (res = Except.error PipeFailure.osErrorClosedHandle →
      safe_transmit res = Except.error PipeFailure.osErrorClosedHandle) := by
  refine ⟨?_, ?_, ?_⟩
  · rintro (rfl | rfl) <;> rfl
  · rintro a rfl; rfl
  · rintro rfl; rfl

/-- Witness for C8's amended theorem at a broken-pipe failure. -/
theorem safe_transmit_amended_witness :
    ((Except.error PipeFailure.brokenPipeError : Except PipeFailure Unit)
        = Except.error PipeFailure.brokenPipeError ∨
     (Except.error PipeFailure.brokenPipeError : Except PipeFailure Unit)
        = Except.error PipeFailure.eofError) ∧
    safe_transmit (Except.error PipeFailure.brokenPipeError : Except PipeFailure Unit)
      = Except.ok none :=
  ⟨Or.inl rfl,
   (safe_transmit_amended
     (Except.error PipeFailure.brokenPipeError : Except PipeFailure Unit)).1 (Or.inl rfl)⟩

/-- C1 (code bug): on the running proxy registered under "0x1",
`close_service` does close the proxy and does evict the running-process
record, but then raises `AttributeError` instead of detaching, because
`ServiceFunctionReceiver` defines no `disconnect_service` attribute. -/
theorem close_service_missing_detach :
    (close_service sampleRegistry sampleProxy).1
      = some (PyError.attributeError
          "type object ServiceFunctionReceiver has no attribute disconnect_service") ∧
    (close_service sampleRegistry sampleProxy).2.1.conn_closed = true ∧
    dictLookup (close_service sampleRegistry sampleProxy).2.2 "0x1" = none ∧
    receiverHasAttr "disconnect_service" = false := by decide

/-- Witness for C2: `unitHooks` at `sampleService` with three steps. -/
theorem step_counter_law_witness :
    (PySimService.start unitHooks sampleService).1 = true ∧
    (∀ j, j < 3 → (PySimService.step unitHooks
        (PySimService.stepN unitHooks (PySimService.start unitHooks sampleService).2 j)).1
          = true) ∧
    ((PySimService.start unitHooks sampleService).2.current_step
        = (PySimService.start unitHooks sampleService).2.beginning_step ∧
     (PySimService.stepN unitHooks (PySimService.start unitHooks sampleService).2 3).current_step
        = (PySimService.start unitHooks sampleService).2.beginning_step + 3) :=
  ⟨by decide, by decide,
   step_counter_law unitHooks sampleService 3 (by decide) (by decide)⟩

end SimService
